import Mathlib

/-!
# Verification of the cache-aside consistency layer

Shallow embedding of the cache-aside layer of the blog API
(`app/cache.py`, `app/services/article_service.py`,
`app/services/comment_service.py`, `app/middleware.py`) together with
proofs about the cache key scheme, the invalidation policy, the
read-through orchestration, the per-request query counter and the
hit/miss statistics.

Conventions of the embedding:

* Python dictionaries / JSON payloads are embedded as the inductive
  `PyVal`; Python truthiness (`if cached:`) is `pyTruthy`.
* The Redis store is embedded as an association list from key strings
  to already-deserialized payloads (`CacheState.store`); the JSON
  serializer is assumed to round-trip on the payloads the application
  itself writes.  The degraded outcomes of `CacheManager.get`
  (connection error, absent key, deserialization failure) are driven
  by an explicit `GetOutcome` oracle, mirroring the `try/except`
  control flow of `cache.py`.
* The database is embedded as in-memory tables (`Db`); each SQL
  statement executed by the database collaborator advances the
  per-request query counter by one, which is exactly the
  `before_cursor_execute` listener registered by
  `install_query_counter` in `app/middleware.py`.
* Timestamps are embedded as `Nat` and `datetime.isoformat()` as
  decimal rendering; nothing proved here depends on their values.
-/

/-- Embedded Python/JSON value, the payload type of the cache. -/
inductive PyVal where
  | none : PyVal
  | bool (b : Bool) : PyVal
  | int (n : Int) : PyVal
  | str (s : String) : PyVal
  | list (xs : List PyVal) : PyVal
  | dict (kvs : List (String × PyVal)) : PyVal

/-- Python truthiness: `None`, `False`, `0`, `""`, `[]` and `{}` are falsy. -/
def pyTruthy : PyVal → Bool
  | .none => false
  | .bool b => b
  | .int n => n != 0
  | .str s => s ≠ ""
  | .list xs => !xs.isEmpty
  | .dict kvs => !kvs.isEmpty

/-- Truthiness of an optional value (`None` for an absent value). -/
def pyTruthyOpt : Option PyVal → Bool
  | Option.none => false
  | Option.some v => pyTruthy v

/-- Fuel-indexed glob matcher for Redis `SCAN ... MATCH` patterns
(`*` matches any sequence, `?` any single character; the character
classes of full Redis globs are not used by this application).  The
fuel argument makes the recursion structural; `globMatch` below always
supplies enough fuel. -/
def globMatchF : Nat → List Char → List Char → Bool
  | 0, p, s => p.isEmpty && s.isEmpty
  | _ + 1, [], s => s.isEmpty
  | fuel + 1, '*' :: ps, [] => globMatchF fuel ps []
  | fuel + 1, '*' :: ps, c :: cs =>
      globMatchF fuel ps (c :: cs) || globMatchF fuel ('*' :: ps) cs
  | fuel + 1, p :: ps, c :: cs => (p == '?' || p == c) && globMatchF fuel ps cs
  | _ + 1, _ :: _, [] => false

/-- Glob match on strings.  Each recursive step of `globMatchF`
consumes at least one character of the pattern or of the subject, so
`|pat| + |s| + 1` fuel is always sufficient. -/
def globMatch (pat s : String) : Bool :=
  globMatchF (pat.data.length + s.data.length + 1) pat.data s.data

/-- Association-list lookup in the embedded Redis keyspace. -/
def lookupStore : List (String × PyVal) → String → Option PyVal
  | [], _ => Option.none
  | (k, v) :: rest, key => if k = key then Option.some v else lookupStore rest key

/-- Redis `SET` overwrites the previous binding of the key. -/
def setStore (l : List (String × PyVal)) (key : String) (v : PyVal) :
    List (String × PyVal) :=
  (key, v) :: l.filter (fun kv => kv.1 ≠ key)

/-- State of `CacheManager` (`app/cache.py`): the connection flag
(`self._redis` being non-`None`), the keyspace of the external store,
and the process-wide hit/miss counters. -/
structure CacheState where
  connected : Bool
  store : List (String × PyVal)
  hits : Nat
  misses : Nat

/-- Outcome of the external interaction inside `CacheManager.get`:
the Redis `GET` call either raises (`connErr`), returns `nil`
(`absent`), or returns a payload whose `json.loads` result is
`payload d` (`d = none` embeds a payload that fails to deserialize,
making `json.loads` raise). -/
inductive GetOutcome where
  | connErr : GetOutcome
  | absent : GetOutcome
  | payload (decoded : Option PyVal) : GetOutcome

/-- Embeds `CacheManager.get` (`app/cache.py` lines 55-74).  The
translation preserves the order of the counter updates: on a present
payload `self._hits += 1` executes *before* `return json.loads(data)`,
so a deserialization failure lands in the `except` block with the hit
already counted and then also counts a miss. -/
def CacheManager.get (st : CacheState) (o : GetOutcome) :
    Option PyVal × CacheState :=
  if st.connected = false then
    (Option.none, { st with misses := st.misses + 1 })
  else
    match o with
    | .connErr => (Option.none, { st with misses := st.misses + 1 })
    | .absent => (Option.none, { st with misses := st.misses + 1 })
    | .payload (Option.some v) => (Option.some v, { st with hits := st.hits + 1 })
    | .payload Option.none =>
        (Option.none, { st with hits := st.hits + 1, misses := st.misses + 1 })

/-- Outcome of a `GET` against a healthy connection: the key is either
absent or holds a payload the application serialized itself (which
deserializes successfully). -/
def normalOutcome (st : CacheState) (key : String) : GetOutcome :=
  match lookupStore st.store key with
  | Option.none => GetOutcome.absent
  | Option.some v => GetOutcome.payload (Option.some v)

/-- The deterministic `CacheManager.get` used by the service layer:
the external store answers from its keyspace. -/
def CacheManager.getD (st : CacheState) (key : String) :
    Option PyVal × CacheState :=
  CacheManager.get st (normalOutcome st key)

/-- Embeds `CacheManager.set` (`app/cache.py` lines 76-89): a no-op
when disabled; `json.dumps(value, default=str)` is total on the dict
payloads the services build, so the store is updated.  The TTL is
owned by the external store (spec §1 non-goals) and not modelled as
passing time; an entry present in `store` is an entry whose TTL has
not yet expired. -/
def CacheManager.set (st : CacheState) (key : String) (v : PyVal) : CacheState :=
  if st.connected = false then st
  else { st with store := setStore st.store key v }

/-- Embeds `CacheManager.delete_pattern` (`app/cache.py` lines
91-105): `SCAN`-enumerate the keys matching the glob pattern and
delete them; a no-op when disabled. -/
def CacheManager.deletePattern (st : CacheState) (pat : String) : CacheState :=
  if st.connected = false then st
  else { st with store := st.store.filter (fun kv => !(globMatch pat kv.1)) }

/-- The list cache key of `get_articles`
(`app/services/article_service.py` line 160):
`f"articles:list:{page}:{page_size}:{sort_by}:{sort_order}"`. -/
def listCacheKey (page pageSize : Nat) (sortBy sortOrder : String) : String :=
  s!"articles:list:{page}:{pageSize}:{sortBy}:{sortOrder}"

/-- The detail cache key of `get_article`
(`app/services/article_service.py` line 208) and the literal pattern
passed to `delete_pattern` by `invalidate_article`:
`f"articles:detail:{article_id}"`. -/
def detailKey (articleId : Nat) : String :=
  s!"articles:detail:{articleId}"

/-- Embeds `CacheManager.invalidate_article` (`app/cache.py` lines
111-121): always purge `articles:list:*`; additionally purge the
detail key when an article id is supplied. -/
def CacheManager.invalidateArticle (st : CacheState) (articleId : Option Nat) :
    CacheState :=
  let st1 := CacheManager.deletePattern st "articles:list:*"
  match articleId with
  | Option.none => st1
  | Option.some i => CacheManager.deletePattern st1 (detailKey i)

/-- Round-half-to-even on rationals, the rounding mode of Python's
built-in `round`. -/
def roundHalfEven (q : ℚ) : ℤ :=
  if q - ⌊q⌋ = 1 / 2 then (if Even ⌊q⌋ then ⌊q⌋ else ⌊q⌋ + 1) else round q

/-- Python `round(x, 1)` on exact rationals. -/
def pyRound1 (q : ℚ) : ℚ := (roundHalfEven (q * 10) : ℚ) / 10

/-- Embeds the `hit_rate` field of `CacheManager.stats`
(`app/cache.py` lines 127-135) over exact rationals:
`round(hits / total * 100, 1)` when `total > 0`, else `0.0`. -/
def CacheManager.statsHitRate (hits misses : Nat) : ℚ :=
  if hits + misses > 0 then pyRound1 ((hits : ℚ) / ((hits : ℚ) + (misses : ℚ)) * 100)
  else 0

/-- Row of the `users` table (`app/models.py`). -/
structure UserRow where
  id : Nat
  username : String
  email : String
  displayName : Option String
  bio : Option String
  createdAt : Option Nat

/-- Row of the `tags` table (`app/models.py`). -/
structure TagRow where
  id : Nat
  name : String

/-- Row of the `comments` table (`app/models.py`). -/
structure CommentRow where
  id : Nat
  content : String
  authorName : String
  articleId : Nat
  createdAt : Option Nat

/-- Row of the `articles` table (`app/models.py`). -/
structure ArticleRow where
  id : Nat
  title : String
  slug : String
  content : String
  summary : Option String
  viewCount : Nat
  isPublished : Bool
  publishedAt : Option Nat
  createdAt : Option Nat
  userId : Nat

/-- The relational store: the four tables plus the `article_tags`
association table (pairs of article id and tag id). -/
structure Db where
  articles : List ArticleRow
  comments : List CommentRow
  users : List UserRow
  tags : List TagRow
  articleTags : List (Nat × Nat)

/-- SQL `SELECT ... WHERE Article.id = :id` returning at most one row
(`scalar_one_or_none`; `id` is the primary key). -/
def findArticle (db : Db) (articleId : Nat) : Option ArticleRow :=
  db.articles.find? (fun a => a.id = articleId)

/-- Published articles, the base filter of every list read
(`Article.is_published.is_(True)`). -/
def publishedArticles (db : Db) : List ArticleRow :=
  db.articles.filter (fun a => a.isPublished)

/-- Eager-loaded author of an article (`joinedload(Article.author)`). -/
def authorOf (db : Db) (a : ArticleRow) : Option UserRow :=
  db.users.find? (fun u => u.id = a.userId)

/-- Eager-loaded tags of an article (`selectinload(Article.tags)`
through the `article_tags` association table). -/
def tagsOf (db : Db) (a : ArticleRow) : List TagRow :=
  (db.articleTags.filter (fun p => p.1 = a.id)).filterMap
    (fun p => db.tags.find? (fun t => t.id = p.2))

/-- Eager-loaded comments of an article
(`selectinload(Article.comments)`). -/
def commentsOf (db : Db) (a : ArticleRow) : List CommentRow :=
  db.comments.filter (fun c => c.articleId = a.id)

/-- Embedded `datetime.isoformat()` on the `Nat` timestamps of the
model (the rendered string's shape is irrelevant to every claim). -/
def isoOpt : Option Nat → PyVal
  | Option.none => PyVal.none
  | Option.some t => PyVal.str (toString t)

/-- Serialization of an optional string field. -/
def optStr : Option String → PyVal
  | Option.none => PyVal.none
  | Option.some s => PyVal.str s

/-- Embeds `_serialize_user` (`app/services/article_service.py`). -/
def serializeUser : Option UserRow → PyVal
  | Option.none => PyVal.none
  | Option.some u => PyVal.dict
      [("id", PyVal.int u.id), ("username", PyVal.str u.username),
       ("email", PyVal.str u.email), ("display_name", optStr u.displayName),
       ("bio", optStr u.bio), ("created_at", isoOpt u.createdAt)]

/-- Embeds `_article_to_dict` (list view serialization). -/
def articleToDict (db : Db) (a : ArticleRow) : PyVal :=
  PyVal.dict
    [("id", PyVal.int a.id), ("title", PyVal.str a.title),
     ("slug", PyVal.str a.slug), ("summary", optStr a.summary),
     ("view_count", PyVal.int a.viewCount),
     ("is_published", PyVal.bool a.isPublished),
     ("published_at", isoOpt a.publishedAt),
     ("created_at", isoOpt a.createdAt),
     ("user_id", PyVal.int a.userId),
     ("author", serializeUser (authorOf db a)),
     ("tags", PyVal.list ((tagsOf db a).map
        (fun t => PyVal.dict [("id", PyVal.int t.id), ("name", PyVal.str t.name)])))]

/-- Embeds the comment dict built by `_article_detail_to_dict` and by
`add_comment`. -/
def commentToDict (c : CommentRow) : PyVal :=
  PyVal.dict
    [("id", PyVal.int c.id), ("content", PyVal.str c.content),
     ("author_name", PyVal.str c.authorName),
     ("article_id", PyVal.int c.articleId),
     ("created_at", isoOpt c.createdAt)]

/-- Embeds `_article_detail_to_dict` (detail view serialization):
the list-view dict plus `content` and the comments. -/
def articleDetailToDict (db : Db) (a : ArticleRow) : PyVal :=
  match articleToDict db a with
  | PyVal.dict kvs => PyVal.dict
      (kvs ++ [("content", PyVal.str a.content),
               ("comments", PyVal.list ((commentsOf db a).map commentToDict))])
  | v => v

/-- Column resolved by `_resolve_sort_column`. -/
inductive SortCol where
  | createdAt
  | publishedAt
  | viewCount
  | title
deriving DecidableEq

/-- The whitelist `_SORTABLE_COLUMNS` of
`app/services/article_service.py` lines 44-46. -/
def sortableColumns : List String :=
  ["created_at", "published_at", "view_count", "title"]

/-- Embeds `_resolve_sort_column` (`app/services/article_service.py`
lines 56-65): membership in the whitelist selects the named column,
anything else falls back to `Article.created_at`. -/
def resolveSortColumn (sortBy : String) : SortCol :=
  if sortBy = "created_at" then SortCol.createdAt
  else if sortBy = "published_at" then SortCol.publishedAt
  else if sortBy = "view_count" then SortCol.viewCount
  else if sortBy = "title" then SortCol.title
  else SortCol.createdAt

/-- NULLs-first comparison on optional timestamps, fixing one of the
orderings the external database may choose for SQL NULL (no claim
depends on the placement of NULLs). -/
def optNatLe : Option Nat → Option Nat → Bool
  | Option.none, _ => true
  | Option.some _, Option.none => false
  | Option.some x, Option.some y => x ≤ y

/-- Ascending comparison under the resolved sort column. -/
def sortKeyLe (col : SortCol) (a b : ArticleRow) : Bool :=
  match col with
  | SortCol.createdAt => optNatLe a.createdAt b.createdAt
  | SortCol.publishedAt => optNatLe a.publishedAt b.publishedAt
  | SortCol.viewCount => a.viewCount ≤ b.viewCount
  | SortCol.title => a.title ≤ b.title

/-- Insertion step of the deterministic model of SQL `ORDER BY`. -/
def insertLe (le : ArticleRow → ArticleRow → Bool) (a : ArticleRow) :
    List ArticleRow → List ArticleRow
  | [] => [a]
  | b :: l => if le a b then a :: b :: l else b :: insertLe le a l

/-- Insertion sort, the deterministic model of SQL `ORDER BY` (ties
are returned in a fixed order; no claim depends on tie placement). -/
def isortLe (le : ArticleRow → ArticleRow → Bool) :
    List ArticleRow → List ArticleRow
  | [] => []
  | a :: l => insertLe le a (isortLe le l)

/-- Embeds `order_by(desc(col))` / `order_by(asc(col))` chosen by
`sort_order == "desc"` in `get_articles`. -/
def orderedArticles (col : SortCol) (sortOrder : String)
    (xs : List ArticleRow) : List ArticleRow :=
  if sortOrder = "desc" then isortLe (fun a b => sortKeyLe col b a) xs
  else isortLe (sortKeyLe col) xs

/-- Embeds `.offset((page - 1) * page_size).limit(page_size)`.  The
HTTP boundary (`PaginationParams`) guarantees `page ≥ 1` and
`page_size ≥ 1`, so the truncated `Nat` subtraction agrees with the
source. -/
def paginate (page pageSize : Nat) (xs : List ArticleRow) : List ArticleRow :=
  (xs.drop ((page - 1) * pageSize)).take pageSize

/-- Event emitted while a request is handled; the trace orders the
database flushes against the cache invalidations (spec §5). -/
inductive Event where
  | stmt : Event
  | flush : Event
  | invalidate (pat : String) : Event
deriving DecidableEq

/-- Per-request execution state threaded through the service layer:
the database, the cache manager, the request-scoped query counter
(`query_count_var` of `app/middleware.py`) and the event trace. -/
structure AppState where
  db : Db
  cache : CacheState
  queryCount : Nat
  events : List Event

/-- Modelled from the spec: the per-request query counter advances
exactly once per SQL statement executed (spec §4.5).  In the source
this is the `before_cursor_execute` listener registered by
`install_query_counter` (`app/middleware.py` lines 14-29), which fires
for every statement, including those issued internally by the
`selectinload` eager-loading strategy.  The services additionally call
`increment_query_count`, imported from `app.middleware`, but no
definition of that name exists anywhere in the repository; §4.5's
exactly-once-per-statement contract together with the listener that
*is* in the source fixes the counter's advance to one per statement. -/
def execStmt (st : AppState) : AppState :=
  { st with queryCount := st.queryCount + 1, events := st.events ++ [Event.stmt] }

/-- Modelled from the spec: `db.flush()` applies the pending mutations
and issues `stmts` DML statements through the engine, each counted by
the listener (spec §6: the session supports flush; §4.5: every
statement counts).  The callers below pass the statement count their
pending unit of work produces (a single-row UPDATE/INSERT/DELETE is
one statement). -/
def dbFlush (st : AppState) (stmts : Nat) : AppState :=
  { st with queryCount := st.queryCount + stmts,
            events := st.events ++ List.replicate stmts Event.stmt ++ [Event.flush] }

/-- Cache write performed by a service (`cache.set`). -/
def cacheSetApp (st : AppState) (key : String) (v : PyVal) : AppState :=
  { st with cache := CacheManager.set st.cache key v }

/-- Cache invalidation performed by a service
(`cache.invalidate_article`); the trace records one `invalidate` event
per `delete_pattern` issued. -/
def invalidateArticleApp (st : AppState) (articleId : Option Nat) : AppState :=
  { st with cache := CacheManager.invalidateArticle st.cache articleId,
            events := st.events ++
              (Event.invalidate "articles:list:*" ::
                (match articleId with
                 | Option.none => []
                 | Option.some i => [Event.invalidate (detailKey i)])) }

/-- The `PaginatedResponse.model_dump()` payload cached and returned
by `get_articles` (`app/schemas.py` lines 105-110; `pages` is
`math.ceil(total / page_size) if total > 0 else 0`). -/
def paginatedDump (db : Db) (rows : List ArticleRow)
    (total page pageSize : Nat) : PyVal :=
  PyVal.dict
    [("items", PyVal.list (rows.map (articleToDict db))),
     ("total", PyVal.int total),
     ("page", PyVal.int page),
     ("page_size", PyVal.int pageSize),
     ("pages", PyVal.int (if total > 0 then (total + pageSize - 1) / pageSize else 0))]

/-- Cache-miss path of `get_articles`
(`app/services/article_service.py` lines 165-198).  Statements
counted: the COUNT (line 171-172), the page SELECT — the
`joinedload(Article.author)` travels in the same statement as a JOIN
(design note, lines 9-13) — and the one additional statement of
`selectinload(Article.tags)` (modelled from the spec:
§8 "1 (count) + 1 (page select with join) + 1 (tags selectinload)"). -/
def getArticlesMiss (st : AppState) (page pageSize : Nat)
    (sortBy sortOrder : String) : PyVal × AppState :=
  let st := execStmt st
  let total := (publishedArticles st.db).length
  let sortCol := resolveSortColumn sortBy
  let st := execStmt st
  let st := execStmt st
  let rows := paginate page pageSize
    (orderedArticles sortCol sortOrder (publishedArticles st.db))
  let resp := paginatedDump st.db rows total page pageSize
  let st := cacheSetApp st (listCacheKey page pageSize sortBy sortOrder) resp
  (resp, st)

/-- Embeds `get_articles` (`app/services/article_service.py` lines
145-198): compute the list key, consult the cache (`if cached:` is the
Python truthiness test), return the cached payload on a hit, otherwise
run the miss path and populate the cache. -/
def get_articles (st : AppState) (page pageSize : Nat)
    (sortBy sortOrder : String) : PyVal × AppState :=
  let res := CacheManager.getD st.cache (listCacheKey page pageSize sortBy sortOrder)
  let st1 := { st with cache := res.2 }
  match res.1 with
  | Option.some v =>
      if pyTruthy v then (v, st1)
      else getArticlesMiss st1 page pageSize sortBy sortOrder
  | Option.none => getArticlesMiss st1 page pageSize sortBy sortOrder

/-- Replace the article row with id `a.id` (the ORM identity-map view
of `article.view_count += 1` followed by a flush). -/
def updateArticleRow (db : Db) (a : ArticleRow) : Db :=
  { db with articles := db.articles.map (fun r => if r.id = a.id then a else r) }

/-- Cache-miss path of `get_article`
(`app/services/article_service.py` lines 213-235).  Statements
counted: the SELECT (the `joinedload(Article.author)` is a JOIN inside
the same statement, design note lines 9-13), one statement for
`selectinload(Article.tags)`, one for `selectinload(Article.comments)`
(modelled from the spec: one additional statement per `selectinload`
eager load, §6/§8), and the single-row view-count UPDATE issued by the
flush. -/
def getArticleMiss (st : AppState) (articleId : Nat) :
    Option PyVal × AppState :=
  let st := execStmt st
  let st := execStmt st
  let st := execStmt st
  match findArticle st.db articleId with
  | Option.none => (Option.none, st)
  | Option.some a =>
      let bumped := { a with viewCount := a.viewCount + 1 }
      let st := { st with db := updateArticleRow st.db bumped }
      let st := dbFlush st 1
      let data := articleDetailToDict st.db bumped
      let st := cacheSetApp st (detailKey articleId) data
      (Option.some data, st)

/-- Embeds `get_article` (`app/services/article_service.py` lines
201-235): consult the cache under the detail key (`if cached:`),
return the payload on a hit, otherwise load the article, bump its view
counter, flush, populate the cache and return. -/
def get_article (st : AppState) (articleId : Nat) :
    Option PyVal × AppState :=
  let res := CacheManager.getD st.cache (detailKey articleId)
  let st1 := { st with cache := res.2 }
  match res.1 with
  | Option.some v =>
      if pyTruthy v then (Option.some v, st1)
      else getArticleMiss st1 articleId
  | Option.none => getArticleMiss st1 articleId

/-- Autoincrement id for a new comment row. -/
def nextCommentId (db : Db) : Nat :=
  (db.comments.foldl (fun m c => max m c.id) 0) + 1

/-- Embeds `add_comment` (`app/services/comment_service.py` lines
18-58): existence check SELECT, construct the comment, flush (one
INSERT), then `cache.invalidate_article(article_id)`, then return the
serialized comment.  `created_at` is a server default that is not
refreshed by the flush, so it serializes as `None` here. -/
def add_comment (st : AppState) (articleId : Nat)
    (content authorName : String) : Option PyVal × AppState :=
  let st := execStmt st
  match findArticle st.db articleId with
  | Option.none => (Option.none, st)
  | Option.some _ =>
      let c : CommentRow :=
        { id := nextCommentId st.db, content := content,
          authorName := authorName, articleId := articleId,
          createdAt := Option.none }
      let st := { st with db := { st.db with comments := st.db.comments ++ [c] } }
      let st := dbFlush st 1
      let st := invalidateArticleApp st (Option.some articleId)
      (Option.some (commentToDict c), st)

/-- Python word characters (`\w`), modelled over ASCII (the claims
never inspect slug contents). -/
def isWordChar (c : Char) : Bool := c.isAlphanum || c = '_'

/-- Collapse runs of `'-'` (the `_SLUG_DASH_RE` substitution); the
boolean records whether the previous kept character was a dash. -/
def collapseDashAux : Bool → List Char → List Char
  | _, [] => []
  | prevDash, c :: rest =>
      if c = '-' then
        if prevDash then collapseDashAux true rest
        else '-' :: collapseDashAux true rest
      else c :: collapseDashAux false rest

/-- Embeds `slugify` (`app/services/article_service.py` lines 49-53):
lowercase and strip, drop characters outside `[\w\s-]`, rewrite
whitespace/underscore runs to `-`, collapse `-` runs, strip `-`. -/
def slugify (text : String) : String :=
  let cs := (text.toLower.trim).data
  let kept := cs.filter (fun c => isWordChar c || c.isWhitespace || c = '-')
  let dashed := kept.map (fun c => if c.isWhitespace || c = '_' then '-' else c)
  let squashed := collapseDashAux false dashed
  let stripped :=
    ((squashed.dropWhile (fun c => c = '-')).reverse.dropWhile
      (fun c => c = '-')).reverse
  String.mk stripped

/-- Autoincrement id for a new tag row. -/
def nextTagId (db : Db) : Nat :=
  (db.tags.foldl (fun m t => max m t.id) 0) + 1

/-- Autoincrement id for a new article row. -/
def nextArticleId (db : Db) : Nat :=
  (db.articles.foldl (fun m a => max m a.id) 0) + 1

/-- Embeds `_resolve_tags` (`app/services/article_service.py` lines
123-138): per tag name, one SELECT; when the tag does not yet exist,
add it and flush (one INSERT). -/
def resolveTags (st : AppState) : List String → List TagRow × AppState
  | [] => ([], st)
  | name :: rest =>
      let st1 := execStmt st
      match st1.db.tags.find? (fun t => t.name = name) with
      | Option.some t =>
          let res := resolveTags st1 rest
          (t :: res.1, res.2)
      | Option.none =>
          let t : TagRow := { id := nextTagId st1.db, name := name }
          let st2 := { st1 with db := { st1.db with tags := st1.db.tags ++ [t] } }
          let st3 := dbFlush st2 1
          let res := resolveTags st3 rest
          (t :: res.1, res.2)

/-- Payload of `POST /articles` (`ArticleCreate` in `app/schemas.py`). -/
structure ArticleCreateData where
  title : String
  content : String
  summary : Option String
  isPublished : Bool
  userId : Nat
  tags : List String

/-- Payload of `PUT /articles/{id}` (`ArticleUpdate`): every field is
optional, `Option.some` embeds a field present in
`model_dump(exclude_unset=True)`. -/
structure ArticleUpdateData where
  title : Option String
  content : Option String
  summary : Option (Option String)
  isPublished : Option Bool
  tags : Option (List String)

/-- Embeds `create_article` (`app/services/article_service.py` lines
238-270): slug uniqueness SELECT (with timestamp suffix on collision),
tag resolution, flush of the INSERT, a refresh SELECT, then
`cache.invalidate_article()` (list keys only), then return. -/
def create_article (st : AppState) (d : ArticleCreateData) (now : Nat) :
    PyVal × AppState :=
  let slug0 := slugify d.title
  let st := execStmt st
  let slug := if st.db.articles.any (fun a => a.slug = slug0)
    then s!"{slug0}-{now}" else slug0
  let res := if !d.tags.isEmpty then resolveTags st d.tags else ([], st)
  let tagRows := res.1
  let st := res.2
  let a : ArticleRow :=
    { id := nextArticleId st.db, title := d.title, slug := slug,
      content := d.content, summary := d.summary, viewCount := 0,
      isPublished := d.isPublished,
      publishedAt := if d.isPublished then Option.some now else Option.none,
      createdAt := Option.some now, userId := d.userId }
  let st := { st with db := { st.db with
      articles := st.db.articles ++ [a],
      articleTags := st.db.articleTags ++ tagRows.map (fun t => (a.id, t.id)) } }
  let st := dbFlush st 1
  let st := execStmt st
  let st := invalidateArticleApp st Option.none
  (articleDetailToDict st.db a, st)

/-- Embeds `update_article` (`app/services/article_service.py` lines
273-318): eager-loaded SELECT, partial field update (slug regenerated
when the title is set, `published_at` set on first publication), tag
replacement when `tags` is set, flush, then
`cache.invalidate_article(article_id)`, then return. -/
def update_article (st : AppState) (articleId : Nat)
    (d : ArticleUpdateData) (now : Nat) : Option PyVal × AppState :=
  let st := execStmt st
  let st := execStmt st
  let st := execStmt st
  match findArticle st.db articleId with
  | Option.none => (Option.none, st)
  | Option.some a0 =>
      let a1 := { a0 with
        title := d.title.getD a0.title,
        content := d.content.getD a0.content,
        summary := d.summary.getD a0.summary,
        isPublished := d.isPublished.getD a0.isPublished }
      let a2 := if d.title.isSome then { a1 with slug := slugify a1.title } else a1
      let a3 := if d.isPublished = Option.some true && a2.publishedAt = Option.none
        then { a2 with publishedAt := Option.some now } else a2
      let res : AppState × List (Nat × Nat) := match d.tags with
        | Option.none => (st, st.db.articleTags)
        | Option.some names =>
            let cleared := st.db.articleTags.filter
              (fun p : Nat × Nat => p.1 ≠ articleId)
            let r := resolveTags st names
            (r.2, cleared ++ r.1.map (fun t : TagRow => (articleId, t.id)))
      let st := res.1
      let st := { st with db :=
        { (updateArticleRow st.db a3) with articleTags := res.2 } }
      let st := dbFlush st 1
      let st := invalidateArticleApp st (Option.some articleId)
      (Option.some (articleDetailToDict st.db a3), st)

/-- Embeds `delete_article` (`app/services/article_service.py` lines
321-335): SELECT, delete the row (comments and tag associations
cascade via `ondelete="CASCADE"`), flush, then
`cache.invalidate_article(article_id)`, then return `True`. -/
def delete_article (st : AppState) (articleId : Nat) : Bool × AppState :=
  let st := execStmt st
  match findArticle st.db articleId with
  | Option.none => (false, st)
  | Option.some _ =>
      let st := { st with db := { st.db with
          articles := st.db.articles.filter (fun r => r.id ≠ articleId),
          comments := st.db.comments.filter (fun c => c.articleId ≠ articleId),
          articleTags := st.db.articleTags.filter (fun p => p.1 ≠ articleId) } }
      let st := dbFlush st 1
      let st := invalidateArticleApp st (Option.some articleId)
      (true, st)

/-- Decimal digit characters of `n`, most significant first: the
structurally transparent counterpart of core's fuel-driven
`Nat.toDigitsCore`, used to reason about the `Nat` components of the
cache keys. -/
def decDigits (n : Nat) : List Char :=
  if _h : n < 10 then [Nat.digitChar n]
  else decDigits (n / 10) ++ [Nat.digitChar (n % 10)]
termination_by n
decreasing_by
  exact Nat.div_lt_self (by omega) (by omega)

theorem toDigitsCore_eq_decDigits (fuel n : Nat) (ds : List Char)
    (h : n < fuel) :
    Nat.toDigitsCore 10 fuel n ds = decDigits n ++ ds := by
  induction fuel generalizing n ds with
  | zero => omega
  | succ f ih =>
    by_cases h10 : n / 10 = 0
    · have hn : n < 10 := by
        have := (Nat.div_eq_zero_iff (by omega : 0 < 10)).mp h10
        omega
      rw [Nat.toDigitsCore]
      simp only [h10, if_true, reduceIte]
      rw [decDigits]
      simp [hn, Nat.mod_eq_of_lt hn]
    · have hge : 10 ≤ n := by
        by_contra hlt
        exact h10 (Nat.div_eq_of_lt (by omega))
      have hdiv : n / 10 < n := Nat.div_lt_self (by omega) (by omega)
      rw [Nat.toDigitsCore]
      simp only [h10, reduceIte]
      rw [ih (n / 10) _ (by omega)]
      conv_rhs => rw [decDigits]
      simp [Nat.not_lt.mpr hge, List.append_assoc]

/-- Core's decimal rendering agrees with `decDigits`. -/
theorem repr_eq_decDigits (n : Nat) : Nat.repr n = String.mk (decDigits n) := by
  show (Nat.toDigits 10 n).asString = String.mk (decDigits n)
  rw [Nat.toDigits, toDigitsCore_eq_decDigits (n + 1) n [] (by omega)]
  simp [List.asString]

theorem decDigits_isDigit (n : Nat) :
    ∀ c ∈ decDigits n, c.isDigit = true := by
  induction n using decDigits.induct with
  | case1 n h =>
    rw [decDigits]
    simp only [h, reduceDIte, List.mem_singleton]
    intro c hc
    subst hc
    interval_cases n <;> decide
  | case2 n h ih =>
    rw [decDigits]
    simp only [h, reduceDIte]
    intro c hc
    rcases List.mem_append.mp hc with h1 | h1
    · exact ih c h1
    · have : c = Nat.digitChar (n % 10) := List.mem_singleton.mp h1
      subst this
      have : n % 10 < 10 := Nat.mod_lt _ (by omega)
      interval_cases h : n % 10 <;> simp_all <;> decide

/-- Numeric value of a decimal digit character. -/
def digitVal (c : Char) : Nat := c.toNat - 48

/-- Value of a most-significant-first decimal digit string. -/
def decOf (cs : List Char) : Nat := cs.foldl (fun a c => a * 10 + digitVal c) 0

theorem decOf_go (n : Nat) :
    ∀ a : Nat, (decDigits n).foldl (fun a c => a * 10 + digitVal c) a =
      a * 10 ^ (decDigits n).length + n := by
  induction n using decDigits.induct with
  | case1 n h =>
    intro a
    rw [decDigits]
    simp only [h, reduceDIte, List.foldl_cons, List.foldl_nil, List.length_singleton]
    have : digitVal (Nat.digitChar n) = n := by interval_cases n <;> decide
    rw [this]
    ring
  | case2 n h ih =>
    intro a
    rw [decDigits]
    simp only [h, reduceDIte, List.foldl_append, List.foldl_cons, List.foldl_nil,
      List.length_append, List.length_singleton]
    rw [ih a]
    have hd : digitVal (Nat.digitChar (n % 10)) = n % 10 := by
      have : n % 10 < 10 := Nat.mod_lt _ (by omega)
      interval_cases h : n % 10 <;> simp_all <;> decide
    rw [hd]
    have := Nat.div_add_mod n 10
    ring_nf
    omega

theorem decOf_decDigits (n : Nat) : decOf (decDigits n) = n := by
  have := decOf_go n 0
  simpa [decOf] using this

theorem decDigits_injective : Function.Injective decDigits := by
  intro a b h
  have := decOf_decDigits a
  rw [h, decOf_decDigits] at this
  omega

/-- Core's `Nat.repr` (the rendering of `{page}` and `{page_size}` in
the f-string cache key) is injective. -/
theorem natRepr_injective : Function.Injective Nat.repr := by
  intro a b h
  rw [repr_eq_decDigits, repr_eq_decDigits] at h
  exact decDigits_injective (by injection h)

theorem decDigits_no_colon (n : Nat) : ':' ∉ decDigits n := by
  intro hmem
  have := decDigits_isDigit n ':' hmem
  simp [Char.isDigit] at this

/-- Unique parse at the first unescaped delimiter: two decompositions
of the same character list around a `':'` whose left parts are
colon-free agree componentwise. -/
theorem splitColon (xs₁ : List Char) :
    ∀ xs₂ ys₁ ys₂ : List Char, ':' ∉ xs₁ → ':' ∉ xs₂ →
      xs₁ ++ ':' :: ys₁ = xs₂ ++ ':' :: ys₂ → xs₁ = xs₂ ∧ ys₁ = ys₂ := by
  induction xs₁ with
  | nil =>
    intro xs₂ ys₁ ys₂ _ h₂ h
    cases xs₂ with
    | nil => simpa using h
    | cons c cs =>
      exfalso
      have hc : ':' = c := by simpa using congrArg (fun l => l.head?) h
      exact h₂ (by simp [← hc])
  | cons c cs ih =>
    intro xs₂ ys₁ ys₂ h₁ h₂ h
    cases xs₂ with
    | nil =>
      exfalso
      have hc : c = ':' := by simpa using congrArg (fun l => l.head?) h
      exact h₁ (by simp [hc])
    | cons d ds =>
      have hcd : c = d := by simpa using congrArg (fun l => l.head?) h
      have htl : cs ++ ':' :: ys₁ = ds ++ ':' :: ys₂ := by
        simpa [hcd] using congrArg List.tail h
      have h₁t : ':' ∉ cs := fun hm => h₁ (List.mem_cons_of_mem _ hm)
      have h₂t : ':' ∉ ds := fun hm => h₂ (List.mem_cons_of_mem _ hm)
      obtain ⟨he, ht⟩ := ih ds ys₁ ys₂ h₁t h₂t htl
      exact ⟨by rw [hcd, he], ht⟩

/-- Characterwise view of `listCacheKey`, exposing the `':'`
delimiters of the f-string. -/
theorem listCacheKey_data (p ps : Nat) (b o : String) :
    (listCacheKey p ps b o).data =
      "articles:list:".data ++
        ((Nat.repr p).data ++ ':' ::
          ((Nat.repr ps).data ++ ':' :: (b.data ++ ':' :: o.data))) := by
  have hstep : (listCacheKey p ps b o).data =
      "articles:list:".data ++ (Nat.repr p).data ++ ":".data ++
        (Nat.repr ps).data ++ ":".data ++ b.data ++ ":".data ++ o.data ++
        "".data := rfl
  have hc : ":".data = [':'] := rfl
  rw [hstep, hc]
  simp [List.append_assoc]

theorem globMatchF_self (xs : List Char) : ∀ fuel : Nat, xs.length < fuel →
    '*' ∉ xs → globMatchF fuel xs xs = true := by
  induction xs with
  | nil =>
    intro fuel h _
    cases fuel with
    | zero => omega
    | succ f => rfl
  | cons c cs ih =>
    intro fuel h hstar
    cases fuel with
    | zero => omega
    | succ f =>
      have hc : c = '*' → False := fun he => hstar (by simp [he])
      rw [globMatchF.eq_5 f c cs c cs hc]
      simp only [beq_self_eq_true, Bool.or_true, Bool.true_and]
      have hlen : cs.length < f := by
        simp only [List.length_cons] at h
        omega
      exact ih f hlen (fun hm => hstar (List.mem_cons_of_mem _ hm))

/-- A star-free pattern glob-matches itself (a literal `delete_pattern`
argument such as the detail key deletes exactly that key). -/
theorem globMatch_self (s : String) (h : '*' ∉ s.data) :
    globMatch s s = true :=
  globMatchF_self s.data _ (by omega) h

theorem lookupStore_filter_glob (l : List (String × PyVal)) (pat key : String)
    (h : globMatch pat key = true) :
    lookupStore (l.filter (fun kv => !(globMatch pat kv.1))) key = Option.none := by
  induction l with
  | nil => rfl
  | cons kv rest ih =>
    rw [List.filter_cons]
    by_cases hkeep : globMatch pat kv.1 = true
    · simp [hkeep, ih]
    · have hf : globMatch pat kv.1 = false := by simpa using hkeep
      have heq : kv.1 ≠ key := by
        intro he
        rw [he, h] at hf
        cases hf
      simp [hf, lookupStore, heq, ih]

theorem lookupStore_setStore_self (l : List (String × PyVal)) (key : String)
    (v : PyVal) : lookupStore (setStore l key v) key = Option.some v := by
  simp [setStore, lookupStore]

/-- Characterwise view of `detailKey`. -/
theorem detailKey_data (i : Nat) :
    (detailKey i).data = "articles:detail:".data ++ (Nat.repr i).data := by
  have hstep : (detailKey i).data =
      "articles:detail:".data ++ (Nat.repr i).data ++ "".data := rfl
  have h0 : "".data = ([] : List Char) := rfl
  rw [hstep, h0, List.append_nil]

theorem natRepr_data (n : Nat) : (Nat.repr n).data = decDigits n := by
  rw [repr_eq_decDigits]

theorem natRepr_no_colon (n : Nat) : ':' ∉ (Nat.repr n).data := by
  rw [natRepr_data]
  exact decDigits_no_colon n

theorem decDigits_no_star (n : Nat) : '*' ∉ decDigits n := by
  intro hmem
  have := decDigits_isDigit n '*' hmem
  simp [Char.isDigit] at this

theorem detailKey_no_star (i : Nat) : '*' ∉ (detailKey i).data := by
  rw [detailKey_data]
  intro hmem
  rcases List.mem_append.mp hmem with h | h
  · revert h
    decide
  · rw [natRepr_data] at h
    exact decDigits_no_star i h

theorem string_data_inj {s t : String} (h : s.data = t.data) : s = t := by
  cases s
  cases t
  exact congrArg String.mk h

/-- C2 counterexample: the claim "two distinct
(page, page_size, sort_by, sort_order) tuples always yield distinct
keys" fails, because the `':'` delimiter of the f-string may also
occur inside `sort_by`: the distinct tuples `(1, 1, "a:b", "c")` and
`(1, 1, "a", "b:c")` both produce the key
`"articles:list:1:1:a:b:c"`. -/
theorem C2_counterexample :
    ((1 : Nat), (1 : Nat), "a:b", "c") ≠ ((1 : Nat), (1 : Nat), "a", "b:c") ∧
    listCacheKey 1 1 "a:b" "c" = listCacheKey 1 1 "a" "b:c" := by
  constructor
  · decide
  · rfl

/-- C2 (amended): the list cache key construction is deterministic —
identical tuples always produce the identical string — and injective
on every pair of tuples whose `sort_by` components do not contain the
`':'` delimiter; with a `':'` inside `sort_by`, distinct tuples can
collide (see the counterexample). -/
theorem C2_list_key_deterministic_injective :
    (∀ (p₁ ps₁ : Nat) (b₁ o₁ : String) (p₂ ps₂ : Nat) (b₂ o₂ : String),
        p₁ = p₂ → ps₁ = ps₂ → b₁ = b₂ → o₁ = o₂ →
        listCacheKey p₁ ps₁ b₁ o₁ = listCacheKey p₂ ps₂ b₂ o₂) ∧
    (∀ (p₁ ps₁ : Nat) (b₁ o₁ : String) (p₂ ps₂ : Nat) (b₂ o₂ : String),
        ':' ∉ b₁.data → ':' ∉ b₂.data →
        listCacheKey p₁ ps₁ b₁ o₁ = listCacheKey p₂ ps₂ b₂ o₂ →
        p₁ = p₂ ∧ ps₁ = ps₂ ∧ b₁ = b₂ ∧ o₁ = o₂) := by
  constructor
  · intro p₁ ps₁ b₁ o₁ p₂ ps₂ b₂ o₂ h1 h2 h3 h4
    rw [h1, h2, h3, h4]
  · intro p₁ ps₁ b₁ o₁ p₂ ps₂ b₂ o₂ hb₁ hb₂ h
    have hd := congrArg String.data h
    rw [listCacheKey_data, listCacheKey_data] at hd
    have h1 := List.append_cancel_left hd
    obtain ⟨hp, hrest⟩ :=
      splitColon _ _ _ _ (natRepr_no_colon p₁) (natRepr_no_colon p₂) h1
    obtain ⟨hps, hrest2⟩ :=
      splitColon _ _ _ _ (natRepr_no_colon ps₁) (natRepr_no_colon ps₂) hrest
    obtain ⟨hb, ho⟩ := splitColon _ _ _ _ hb₁ hb₂ hrest2
    exact ⟨natRepr_injective (string_data_inj hp),
      natRepr_injective (string_data_inj hps),
      string_data_inj hb, string_data_inj ho⟩

/-- Witness for `C2_list_key_deterministic_injective` at the concrete
tuple `(2, 20, "title", "asc")`. -/
theorem C2_list_key_witness :
    listCacheKey 2 20 "title" "asc" = listCacheKey 2 20 "title" "asc" ∧
    ((2 : Nat) = 2 ∧ (20 : Nat) = 20 ∧ "title" = "title" ∧ "asc" = "asc") :=
  ⟨C2_list_key_deterministic_injective.1 2 20 "title" "asc" 2 20 "title" "asc"
      rfl rfl rfl rfl,
   C2_list_key_deterministic_injective.2 2 20 "title" "asc" 2 20 "title" "asc"
      (by decide) (by decide) rfl⟩

theorem invalidateArticle_purges (c : CacheState) (i : Nat)
    (hconn : c.connected = true) :
    (∀ kv ∈ (CacheManager.invalidateArticle c (Option.some i)).store,
        globMatch "articles:list:*" kv.1 = false) ∧
    lookupStore (CacheManager.invalidateArticle c (Option.some i)).store
      (detailKey i) = Option.none := by
  unfold CacheManager.invalidateArticle CacheManager.deletePattern
  rw [hconn]
  simp only [Bool.true_eq_false, if_false, reduceIte]
  constructor
  · intro kv hkv
    have h1 := (List.mem_filter.mp hkv).2
    have h2 := (List.mem_filter.mp (List.mem_filter.mp hkv).1).2
    simpa using h2
  · exact lookupStore_filter_glob _ _ _
      (globMatch_self (detailKey i) (detailKey_no_star i))

theorem add_comment_cache (st : AppState) (articleId : Nat)
    (content authorName : String) (a : ArticleRow)
    (hfind : findArticle st.db articleId = Option.some a) :
    (add_comment st articleId content authorName).2.cache =
      CacheManager.invalidateArticle st.cache (Option.some articleId) := by
  unfold add_comment
  simp only [execStmt]
  rw [hfind]
  rfl

/-- Fixture: a user, a published article with id 1, a database holding
them, and a connected cache prepopulated with one list entry and one
detail entry. -/
def userX : UserRow :=
  { id := 1, username := "ann", email := "ann@example.com",
    displayName := Option.none, bio := Option.none,
    createdAt := Option.some 5 }

/-- Fixture article with id 1. -/
def articleX : ArticleRow :=
  { id := 1, title := "Hello", slug := "hello", content := "body",
    summary := Option.none, viewCount := 3, isPublished := true,
    publishedAt := Option.some 7, createdAt := Option.some 7, userId := 1 }

/-- Fixture database containing `userX` and `articleX`. -/
def dbX : Db :=
  { articles := [articleX], comments := [], users := [userX],
    tags := [], articleTags := [] }

/-- Fixture list-cache payload. -/
def listValX : PyVal := PyVal.dict [("total", PyVal.int 1)]

/-- Fixture cache holding one list key and one detail key. -/
def cacheX : CacheState :=
  { connected := true,
    store := [("articles:list:1:20:created_at:desc", listValX),
              ("articles:detail:1", PyVal.dict [("id", PyVal.int 1)])],
    hits := 0, misses := 0 }

/-- Fixture request state over `dbX` and `cacheX`. -/
def stX : AppState :=
  { db := dbX, cache := cacheX, queryCount := 0, events := [] }

/-- C1 counterexample: adding a comment to article 1 does delete a
list cache key.  Before the call the key
`"articles:list:1:20:created_at:desc"` is present; after `add_comment`
it is gone, because `add_comment` calls
`cache.invalidate_article(article_id)` and `invalidate_article`
unconditionally purges the `articles:list:*` pattern. -/
theorem C1_counterexample :
    lookupStore stX.cache.store "articles:list:1:20:created_at:desc" =
      Option.some listValX ∧
    lookupStore (add_comment stX 1 "nice" "bob").2.cache.store
      "articles:list:1:20:created_at:desc" = Option.none := by
  constructor
  · rfl
  · rfl

/-- C1 (amended): adding a comment to an existing article purges the
parent article's detail cache key *and* every `articles:list:*` key —
`add_comment` delegates to `invalidate_article`, which always purges
the list namespace before deleting the detail key (purging requires a
connected cache; when the store is disabled the delete degrades to a
no-op). -/
theorem C1_add_comment_purges (st : AppState) (articleId : Nat)
    (content authorName : String) (a : ArticleRow)
    (hconn : st.cache.connected = true)
    (hfind : findArticle st.db articleId = Option.some a) :
    (∀ kv ∈ (add_comment st articleId content authorName).2.cache.store,
        globMatch "articles:list:*" kv.1 = false) ∧
    lookupStore (add_comment st articleId content authorName).2.cache.store
      (detailKey articleId) = Option.none := by
  rw [add_comment_cache st articleId content authorName a hfind]
  exact invalidateArticle_purges st.cache articleId hconn

/-- Witness for `C1_add_comment_purges` at the concrete fixture
state. -/
theorem C1_add_comment_purges_witness :
    lookupStore (add_comment stX 1 "nice" "ann").2.cache.store
      (detailKey 1) = Option.none :=
  (C1_add_comment_purges stX 1 "nice" "ann" articleX rfl rfl).2

theorem getArticlesMiss_queryCount (st : AppState) (p ps : Nat)
    (sb so : String) :
    (getArticlesMiss st p ps sb so).2.queryCount = st.queryCount + 3 := rfl

/-- C4: every list read that misses the cache advances the per-request
query counter by exactly 3 — the COUNT statement, the page SELECT
(the author joinedload rides in the same statement) and the one
statement of the tags selectinload — independent of the database
contents and hence of the number of rows in the page (the state `st`
quantifies over every database). -/
theorem C4_list_query_count (st : AppState) (page pageSize : Nat)
    (sortBy sortOrder : String)
    (hmiss : pyTruthyOpt (CacheManager.getD st.cache
        (listCacheKey page pageSize sortBy sortOrder)).1 = false) :
    (get_articles st page pageSize sortBy sortOrder).2.queryCount =
      st.queryCount + 3 := by
  unfold get_articles
  rcases hres : CacheManager.getD st.cache
      (listCacheKey page pageSize sortBy sortOrder) with ⟨r, c⟩
  rw [hres] at hmiss
  cases r with
  | none => exact getArticlesMiss_queryCount _ page pageSize sortBy sortOrder
  | some v =>
    have hv : pyTruthy v = false := by simpa [pyTruthyOpt] using hmiss
    simp only [hv, Bool.false_eq_true, if_false, reduceIte]
    exact getArticlesMiss_queryCount _ page pageSize sortBy sortOrder

/-- Fixture request state with an empty connected cache (every read
misses). -/
def stMissX : AppState :=
  { db := dbX,
    cache := { connected := true, store := [], hits := 0, misses := 0 },
    queryCount := 0, events := [] }

/-- Witness for `C4_list_query_count`: a concrete list read against an
empty connected cache counts exactly three statements. -/
theorem C4_list_query_count_witness :
    (get_articles stMissX 1 20 "created_at" "desc").2.queryCount = 0 + 3 :=
  C4_list_query_count stMissX 1 20 "created_at" "desc" rfl

/-- C3: a detail read that misses the cache and finds the article
advances the per-request query counter 4 times, not 5 as the claim,
spec §8 and the repository's own regression test
(`test_query_count_header_exact_for_article_detail`, which asserts 5)
state.  The four statements are: the SELECT (which is simultaneously
the existence check and the author join — `joinedload` adds no second
statement), the tags selectinload, the comments selectinload, and the
view-count UPDATE issued by the flush.  The test's arithmetic counts
the existence check and the author-join SELECT as two separate
statements. -/
theorem C3_detail_query_count_four :
    (get_article stMissX 1).2.queryCount = 4 ∧
    ¬ (get_article stMissX 1).2.queryCount = 5 := by
  constructor
  · rfl
  · decide

theorem findArticle_update (db : Db) (articleId : Nat) (a b : ArticleRow)
    (hfind : findArticle db articleId = Option.some a) (hid : b.id = a.id) :
    findArticle (updateArticleRow db b) articleId = Option.some b := by
  unfold findArticle updateArticleRow at *
  obtain ⟨arts, cs, us, ts, ats⟩ := db
  dsimp only at hfind ⊢
  induction arts with
  | nil => simp [List.find?] at hfind
  | cons x xs ih =>
    rw [List.map_cons]
    by_cases hx : x.id = articleId
    · rw [List.find?_cons_of_pos _ (by simpa using hx)] at hfind
      have hxa : x = a := by injection hfind
      have hxb : x.id = b.id := by rw [hid, ← hxa]
      rw [if_pos hxb]
      exact List.find?_cons_of_pos _ (by simp [← hxb, hx])
    · rw [List.find?_cons_of_neg _ (by simpa using hx)] at hfind
      have haid : a.id = articleId := by
        have := List.find?_some hfind
        simpa using this
      have hxb : ¬ x.id = b.id := by
        rw [hid, haid]
        exact hx
      rw [if_neg hxb]
      rw [List.find?_cons_of_neg _ (by simpa using hx)]
      exact ih hfind

/-- C5: on a detail read, a cache hit returns the cached payload
without touching the database — the query counter does not advance and
the database (hence the article's view counter) is unchanged — while a
cache miss that finds the article increments that article's view
counter by exactly one, flushes the mutation (a `flush` event is in
the request trace) and returns a payload. -/
theorem C5_detail_hit_miss_effects :
    (∀ (st : AppState) (articleId : Nat) (v : PyVal),
        st.cache.connected = true →
        lookupStore st.cache.store (detailKey articleId) = Option.some v →
        pyTruthy v = true →
        (get_article st articleId).1 = Option.some v ∧
        (get_article st articleId).2.db = st.db ∧
        (get_article st articleId).2.queryCount = st.queryCount) ∧
    (∀ (st : AppState) (articleId : Nat) (a : ArticleRow),
        lookupStore st.cache.store (detailKey articleId) = Option.none →
        findArticle st.db articleId = Option.some a →
        findArticle (get_article st articleId).2.db articleId =
          Option.some { a with viewCount := a.viewCount + 1 } ∧
        Event.flush ∈ (get_article st articleId).2.events ∧
        (get_article st articleId).1 ≠ Option.none) := by
  constructor
  · intro st articleId v hconn hlook htr
    have hkey : CacheManager.getD st.cache (detailKey articleId) =
        (Option.some v, { st.cache with hits := st.cache.hits + 1 }) := by
      unfold CacheManager.getD normalOutcome CacheManager.get
      rw [hlook, hconn]
      simp [hconn]
    unfold get_article
    rw [hkey]
    simp [htr]
  · intro st articleId a hlook hfind
    have hkey : CacheManager.getD st.cache (detailKey articleId) =
        (Option.none, { st.cache with misses := st.cache.misses + 1 }) := by
      unfold CacheManager.getD normalOutcome CacheManager.get
      rw [hlook]
      by_cases hc : st.cache.connected = false <;> simp [hc]
    unfold get_article
    rw [hkey]
    unfold getArticleMiss
    simp only [execStmt]
    rw [hfind]
    refine ⟨?_, ?_, ?_⟩
    · simp only [cacheSetApp, dbFlush]
      exact findArticle_update _ articleId a _ hfind rfl
    · simp [cacheSetApp, dbFlush]
    · simp [cacheSetApp, dbFlush]

/-- Witness for `C5_detail_hit_miss_effects`: the hit clause at the
prepopulated fixture cache, the miss clause at the empty fixture
cache. -/
theorem C5_detail_hit_miss_witness :
    (get_article stX 1).1 = Option.some (PyVal.dict [("id", PyVal.int 1)]) ∧
    findArticle (get_article stMissX 1).2.db 1 =
      Option.some { articleX with viewCount := articleX.viewCount + 1 } :=
  ⟨(C5_detail_hit_miss_effects.1 stX 1 (PyVal.dict [("id", PyVal.int 1)])
      rfl rfl rfl).1,
   (C5_detail_hit_miss_effects.2 stMissX 1 articleX rfl rfl).1⟩

/-- Fixture: an empty connected cache with zeroed counters. -/
def cacheE : CacheState :=
  { connected := true, store := [], hits := 0, misses := 0 }

/-- C6 counterexample: the claim "every call increments exactly one of
the hit or miss counters" fails on a deserialization failure.  In
`cache.py` the hit counter is incremented *before*
`return json.loads(data)`; when `json.loads` raises, the `except`
block then also increments the miss counter, so a single call advances
both counters (total `+2`, not `+1`). -/
theorem C6_counterexample :
    (CacheManager.get cacheE (GetOutcome.payload Option.none)).2.hits = 1 ∧
    (CacheManager.get cacheE (GetOutcome.payload Option.none)).2.misses = 1 ∧
    ¬ ((CacheManager.get cacheE (GetOutcome.payload Option.none)).2.hits +
        (CacheManager.get cacheE (GetOutcome.payload Option.none)).2.misses =
        cacheE.hits + cacheE.misses + 1) := by
  refine ⟨rfl, rfl, ?_⟩
  decide

/-- C6 (amended): `get` never raises (it is total), never mutates the
keyspace, returns the deserialized value exactly on a true hit and the
miss sentinel `None` in every failure mode (disabled store, connection
error, absent key, deserialization failure); it increments exactly one
of the hit/miss counters on every call *except* a deserialization
failure, where it increments both (hit first, then miss in the
`except` block). -/
theorem C6_get_never_raises (st : CacheState) (o : GetOutcome) :
    (CacheManager.get st o).2.connected = st.connected ∧
    (CacheManager.get st o).2.store = st.store ∧
    ((∃ v, (CacheManager.get st o).1 = Option.some v) ↔
      (st.connected = true ∧ ∃ v, o = GetOutcome.payload (Option.some v))) ∧
    (st.connected = true → o = GetOutcome.payload Option.none →
      (CacheManager.get st o).2.hits = st.hits + 1 ∧
      (CacheManager.get st o).2.misses = st.misses + 1) ∧
    ((st.connected = true ∧ o = GetOutcome.payload Option.none) ∨
      ((CacheManager.get st o).2.hits = st.hits + 1 ∧
        (CacheManager.get st o).2.misses = st.misses) ∨
      ((CacheManager.get st o).2.misses = st.misses + 1 ∧
        (CacheManager.get st o).2.hits = st.hits)) := by
  unfold CacheManager.get
  cases hc : st.connected with
  | false => simp [hc]
  | true =>
    cases o with
    | connErr => simp [hc]
    | absent => simp [hc]
    | payload d =>
      cases d with
      | none => simp [hc]
      | some v => simp [hc]

/-- Witness for `C6_get_never_raises`: the deserialization-failure
clause evaluated at the fixture cache. -/
theorem C6_get_never_raises_witness :
    (CacheManager.get cacheE (GetOutcome.payload Option.none)).2.hits =
      cacheE.hits + 1 ∧
    (CacheManager.get cacheE (GetOutcome.payload Option.none)).2.misses =
      cacheE.misses + 1 :=
  (C6_get_never_raises cacheE (GetOutcome.payload Option.none)).2.2.2.1 rfl rfl

/-- C7: for all counter values, when at least one access has occurred
`hit_rate` is `H / (H + M) * 100` rounded to one decimal place (with
Python's round-half-to-even rounding, over exact rationals), and with
no accesses at all it is `0.0`. -/
theorem C7_hit_rate (H M : Nat) :
    (H + M > 0 → CacheManager.statsHitRate H M =
      pyRound1 ((H : ℚ) / ((H : ℚ) + (M : ℚ)) * 100)) ∧
    CacheManager.statsHitRate 0 0 = 0 := by
  constructor
  · intro h
    unfold CacheManager.statsHitRate
    rw [if_pos h]
  · rfl

/-- Witness for `C7_hit_rate` at `H = 1`, `M = 2` and at
`H = M = 0`. -/
theorem C7_hit_rate_witness :
    CacheManager.statsHitRate 1 2 =
      pyRound1 ((1 : ℚ) / ((1 : ℚ) + (2 : ℚ)) * 100) ∧
    CacheManager.statsHitRate 0 0 = 0 :=
  ⟨((C7_hit_rate 1 2).1 (by norm_num) : _),
   (C7_hit_rate 0 0).2⟩

theorem getD_of_lookup_none (c : CacheState) (key : String)
    (h : lookupStore c.store key = Option.none) :
    CacheManager.getD c key =
      (Option.none, { c with misses := c.misses + 1 }) := by
  unfold CacheManager.getD normalOutcome CacheManager.get
  rw [h]
  by_cases hc : c.connected = false <;> simp [hc]

theorem getD_of_lookup_some (c : CacheState) (key : String) (v : PyVal)
    (hconn : c.connected = true) (h : lookupStore c.store key = Option.some v) :
    CacheManager.getD c key =
      (Option.some v, { c with hits := c.hits + 1 }) := by
  unfold CacheManager.getD normalOutcome CacheManager.get
  rw [h, hconn]
  simp

theorem orderedArticles_nil (col : SortCol) (so : String) :
    orderedArticles col so [] = [] := by
  unfold orderedArticles
  by_cases h : so = "desc" <;> simp [h, isortLe]

/-- The `model_dump` payload of an empty page: `items = []`,
`total = 0`, `pages = 0`. -/
def emptyListResp (page pageSize : Nat) : PyVal :=
  PyVal.dict
    [("items", PyVal.list []), ("total", PyVal.int 0),
     ("page", PyVal.int page), ("page_size", PyVal.int pageSize),
     ("pages", PyVal.int 0)]

theorem getArticlesMiss_empty (st : AppState) (p ps : Nat) (sb so : String)
    (hempty : publishedArticles st.db = []) :
    (getArticlesMiss st p ps sb so).1 = emptyListResp p ps ∧
    (getArticlesMiss st p ps sb so).2.cache =
      CacheManager.set st.cache (listCacheKey p ps sb so)
        (emptyListResp p ps) ∧
    (getArticlesMiss st p ps sb so).2.queryCount = st.queryCount + 3 := by
  unfold getArticlesMiss
  simp only [execStmt, cacheSetApp]
  rw [hempty, orderedArticles_nil]
  simp [paginate, paginatedDump, emptyListResp]

/-- C8: a list read over a database with no published articles (an
empty result set, `total = 0`) still stores its payload in the cache
under the list key, and a second identical read is served from the
cache as a hit: it returns the same payload, advances the hit counter,
and does not advance the query counter (the cached empty page is not
mistaken for a cache miss, since the `model_dump` dict is truthy even
when `items` is empty). -/
theorem C8_empty_list_cached (st : AppState) (page pageSize : Nat)
    (sortBy sortOrder : String)
    (hconn : st.cache.connected = true)
    (hmiss : lookupStore st.cache.store
        (listCacheKey page pageSize sortBy sortOrder) = Option.none)
    (hempty : publishedArticles st.db = []) :
    lookupStore (get_articles st page pageSize sortBy sortOrder).2.cache.store
        (listCacheKey page pageSize sortBy sortOrder) =
      Option.some (get_articles st page pageSize sortBy sortOrder).1 ∧
    (get_articles (get_articles st page pageSize sortBy sortOrder).2
        page pageSize sortBy sortOrder).1 =
      (get_articles st page pageSize sortBy sortOrder).1 ∧
    (get_articles (get_articles st page pageSize sortBy sortOrder).2
        page pageSize sortBy sortOrder).2.queryCount =
      (get_articles st page pageSize sortBy sortOrder).2.queryCount ∧
    (get_articles (get_articles st page pageSize sortBy sortOrder).2
        page pageSize sortBy sortOrder).2.cache.hits =
      (get_articles st page pageSize sortBy sortOrder).2.cache.hits + 1 := by
  have hkey1 := getD_of_lookup_none st.cache
    (listCacheKey page pageSize sortBy sortOrder) hmiss
  have h1 : get_articles st page pageSize sortBy sortOrder =
      getArticlesMiss
        { st with cache := { st.cache with misses := st.cache.misses + 1 } }
        page pageSize sortBy sortOrder := by
    unfold get_articles
    rw [hkey1]
  obtain ⟨hr, hc2, _hq⟩ := getArticlesMiss_empty
    { st with cache := { st.cache with misses := st.cache.misses + 1 } }
    page pageSize sortBy sortOrder hempty
  dsimp only at hc2
  have hsetc : CacheManager.set { st.cache with misses := st.cache.misses + 1 }
      (listCacheKey page pageSize sortBy sortOrder)
      (emptyListResp page pageSize) =
      { st.cache with
        misses := st.cache.misses + 1,
        store := setStore st.cache.store
          (listCacheKey page pageSize sortBy sortOrder)
          (emptyListResp page pageSize) } := by
    unfold CacheManager.set
    dsimp only
    rw [hconn]
    simp
  have hlook2 : lookupStore
      (setStore st.cache.store (listCacheKey page pageSize sortBy sortOrder)
        (emptyListResp page pageSize))
      (listCacheKey page pageSize sortBy sortOrder) =
      Option.some (emptyListResp page pageSize) :=
    lookupStore_setStore_self _ _ _
  have hkey2 : CacheManager.getD
      { st.cache with
        misses := st.cache.misses + 1,
        store := setStore st.cache.store
          (listCacheKey page pageSize sortBy sortOrder)
          (emptyListResp page pageSize) }
      (listCacheKey page pageSize sortBy sortOrder) =
      (Option.some (emptyListResp page pageSize),
        { st.cache with
          misses := st.cache.misses + 1,
          store := setStore st.cache.store
            (listCacheKey page pageSize sortBy sortOrder)
            (emptyListResp page pageSize),
          hits := st.cache.hits + 1 }) :=
    getD_of_lookup_some _ _ _ hconn hlook2
  have h2 : get_articles
      (getArticlesMiss
        { st with cache := { st.cache with misses := st.cache.misses + 1 } }
        page pageSize sortBy sortOrder).2
      page pageSize sortBy sortOrder =
      (emptyListResp page pageSize,
        { (getArticlesMiss
            { st with cache := { st.cache with misses := st.cache.misses + 1 } }
            page pageSize sortBy sortOrder).2 with
          cache := { st.cache with
            misses := st.cache.misses + 1,
            store := setStore st.cache.store
              (listCacheKey page pageSize sortBy sortOrder)
              (emptyListResp page pageSize),
            hits := st.cache.hits + 1 } }) := by
    unfold get_articles
    rw [hc2, hsetc, hkey2]
    rfl
  rw [h1, hr, hc2, hsetc, h2]
  refine ⟨?_, rfl, rfl, rfl⟩
  dsimp only
  exact hlook2

/-- Fixture request state over an empty database and an empty
connected cache. -/
def stEmptyX : AppState :=
  { db := { articles := [], comments := [], users := [],
            tags := [], articleTags := [] },
    cache := cacheE, queryCount := 0, events := [] }

/-- Witness for `C8_empty_list_cached` at a concrete empty database
and empty connected cache. -/
theorem C8_empty_list_cached_witness :
    lookupStore (get_articles stEmptyX 1 20 "created_at" "desc").2.cache.store
      (listCacheKey 1 20 "created_at" "desc") =
      Option.some (get_articles stEmptyX 1 20 "created_at" "desc").1 :=
  (C8_empty_list_cached stEmptyX 1 20 "created_at" "desc" rfl rfl rfl).1

/-- Trace shape demanded by spec §5: some flush precedes the first
cache invalidation of the request (no `invalidate` event occurs before
the featured `flush`). -/
def flushThenInval (es : List Event) : Prop :=
  ∃ as bs cs pat,
    es = as ++ Event.flush :: bs ++ Event.invalidate pat :: cs ∧
    (∀ p, Event.invalidate p ∉ as) ∧ (∀ p, Event.invalidate p ∉ bs)

theorem flushThenInval_of_shape (as bs cs : List Event) (pat : String)
    (ha : ∀ p, Event.invalidate p ∉ as) (hb : ∀ p, Event.invalidate p ∉ bs) :
    flushThenInval (as ++ Event.flush :: bs ++ Event.invalidate pat :: cs) :=
  ⟨as, bs, cs, pat, rfl, ha, hb⟩

theorem resolveTags_events (names : List String) : ∀ st : AppState,
    ∃ l : List Event, (resolveTags st names).2.events = st.events ++ l ∧
      ∀ p, Event.invalidate p ∉ l := by
  induction names with
  | nil =>
    intro st
    exact ⟨[], by simp [resolveTags], by simp⟩
  | cons name rest ih =>
    intro st
    unfold resolveTags
    dsimp only
    cases hfind : (execStmt st).db.tags.find? (fun t => t.name = name) with
    | some t =>
      dsimp only
      obtain ⟨l, hl, hnl⟩ := ih (execStmt st)
      refine ⟨Event.stmt :: l, hl.trans (by simp [execStmt]), ?_⟩
      intro p hp
      rcases List.mem_cons.mp hp with h | h
      · exact Event.noConfusion h
      · exact hnl p h
    | none =>
      dsimp only
      obtain ⟨l, hl, hnl⟩ := ih
        (dbFlush { execStmt st with db :=
          { (execStmt st).db with tags := (execStmt st).db.tags ++
              [{ id := nextTagId (execStmt st).db, name := name }] } } 1)
      refine ⟨Event.stmt :: Event.stmt :: Event.flush :: l,
        hl.trans (by simp [execStmt, dbFlush, List.replicate]), ?_⟩
      intro p hp
      rcases List.mem_cons.mp hp with h | hp
      · exact Event.noConfusion h
      rcases List.mem_cons.mp hp with h | hp
      · exact Event.noConfusion h
      rcases List.mem_cons.mp hp with h | hp
      · exact Event.noConfusion h
      · exact hnl p hp

/-- C9: in every write operation that performs a database mutation —
create article, update article, delete article, add comment — the
cache invalidation is issued synchronously after the mutation has been
flushed: in the request trace some `flush` precedes the first
`invalidate`, and the invalidation has completed (its purge applied to
the returned cache state) before the operation returns.  The traces
start from a fresh request (`st.events = []`). -/
theorem C9_invalidation_after_flush :
    (∀ (st : AppState) (d : ArticleCreateData) (now : Nat),
        st.events = [] →
        flushThenInval (create_article st d now).2.events) ∧
    (∀ (st : AppState) (articleId : Nat) (d : ArticleUpdateData) (now : Nat)
        (a : ArticleRow), st.events = [] →
        findArticle st.db articleId = Option.some a →
        flushThenInval (update_article st articleId d now).2.events) ∧
    (∀ (st : AppState) (articleId : Nat) (a : ArticleRow), st.events = [] →
        findArticle st.db articleId = Option.some a →
        flushThenInval (delete_article st articleId).2.events) ∧
    (∀ (st : AppState) (articleId : Nat) (content authorName : String)
        (a : ArticleRow), st.events = [] →
        findArticle st.db articleId = Option.some a →
        flushThenInval (add_comment st articleId content authorName).2.events) := by
  refine ⟨?_, ?_, ?_, ?_⟩
  · intro st d now hev
    unfold create_article
    dsimp only [execStmt]
    by_cases hbt : d.tags.isEmpty = true
    · rw [hbt]
      dsimp only [dbFlush, invalidateArticleApp]
      rw [hev]
      exact flushThenInval_of_shape [Event.stmt, Event.stmt] [Event.stmt] []
        "articles:list:*" (by intro p h; simp at h) (by intro p h; simp at h)
    · rw [Bool.not_eq_true] at hbt
      rw [hbt]
      simp only [Bool.not_false, reduceIte]
      obtain ⟨l, hl, hnl⟩ := resolveTags_events d.tags (execStmt st)
      dsimp only [execStmt] at hl
      dsimp only [dbFlush, invalidateArticleApp]
      refine ⟨Event.stmt :: (l ++ [Event.stmt]), [Event.stmt], [],
        "articles:list:*", ?_, ?_, by simp⟩
      · rw [hl, hev]
        simp
      · intro p hp
        simp at hp
        exact hnl p hp
  · intro st articleId d now a hev hfind
    unfold update_article
    dsimp only [execStmt]
    rw [hfind]
    dsimp only
    cases htags : d.tags with
    | none =>
      dsimp only [dbFlush, invalidateArticleApp]
      rw [hev]
      exact flushThenInval_of_shape
        [Event.stmt, Event.stmt, Event.stmt, Event.stmt] []
        [Event.invalidate (detailKey articleId)] "articles:list:*"
        (by intro p h; simp at h) (by intro p h; simp at h)
    | some names =>
      obtain ⟨l, hl, hnl⟩ := resolveTags_events names
        (execStmt (execStmt (execStmt st)))
      dsimp only [execStmt] at hl
      dsimp only [dbFlush, invalidateArticleApp]
      refine ⟨Event.stmt :: Event.stmt :: Event.stmt :: (l ++ [Event.stmt]),
        [], [Event.invalidate (detailKey articleId)],
        "articles:list:*", ?_, ?_, by simp⟩
      · rw [hl, hev]
        simp
      · intro p hp
        simp at hp
        exact hnl p hp
  · intro st articleId a hev hfind
    unfold delete_article
    dsimp only [execStmt]
    rw [hfind]
    dsimp only [dbFlush, invalidateArticleApp]
    rw [hev]
    exact flushThenInval_of_shape [Event.stmt, Event.stmt] []
      [Event.invalidate (detailKey articleId)] "articles:list:*"
      (by intro p h; simp at h) (by intro p h; simp at h)
  · intro st articleId content authorName a hev hfind
    unfold add_comment
    dsimp only [execStmt]
    rw [hfind]
    dsimp only [dbFlush, invalidateArticleApp]
    rw [hev]
    exact flushThenInval_of_shape [Event.stmt, Event.stmt] []
      [Event.invalidate (detailKey articleId)] "articles:list:*"
      (by intro p h; simp at h) (by intro p h; simp at h)

/-- Witness for `C9_invalidation_after_flush`: the add-comment clause
at the concrete fixture state. -/
theorem C9_invalidation_after_flush_witness :
    flushThenInval (add_comment stX 1 "nice" "ann").2.events :=
  C9_invalidation_after_flush.2.2.2 stX 1 "nice" "ann" articleX rfl rfl

theorem get_articles_fst_miss (st : AppState) (p ps : Nat) (sb so : String)
    (hmiss : pyTruthyOpt
        (CacheManager.getD st.cache (listCacheKey p ps sb so)).1 = false) :
    (get_articles st p ps sb so).1 =
      paginatedDump st.db
        (paginate p ps (orderedArticles (resolveSortColumn sb) so
          (publishedArticles st.db)))
        (publishedArticles st.db).length p ps := by
  unfold get_articles
  rcases hres : CacheManager.getD st.cache (listCacheKey p ps sb so) with ⟨r, c⟩
  rw [hres] at hmiss
  cases r with
  | none => rfl
  | some v =>
    have hv : pyTruthy v = false := by simpa [pyTruthyOpt] using hmiss
    simp only [hv, Bool.false_eq_true, if_false, reduceIte]
    rfl

/-- C10: `_resolve_sort_column` maps every string outside the
whitelist `{created_at, published_at, view_count, title}` to the
`created_at` column instead of raising or sorting by the requested
name; consequently two cache-missing list reads with distinct
unrecognized `sort_by` values return the same payload while being
cached under distinct keys. -/
theorem C10_sort_fallback :
    (∀ s : String, s ∉ sortableColumns →
        resolveSortColumn s = SortCol.createdAt) ∧
    (∀ (st : AppState) (page pageSize : Nat) (s₁ s₂ sortOrder : String),
        s₁ ∉ sortableColumns → s₂ ∉ sortableColumns → s₁ ≠ s₂ →
        pyTruthyOpt (CacheManager.getD st.cache
          (listCacheKey page pageSize s₁ sortOrder)).1 = false →
        pyTruthyOpt (CacheManager.getD st.cache
          (listCacheKey page pageSize s₂ sortOrder)).1 = false →
        (get_articles st page pageSize s₁ sortOrder).1 =
          (get_articles st page pageSize s₂ sortOrder).1 ∧
        listCacheKey page pageSize s₁ sortOrder ≠
          listCacheKey page pageSize s₂ sortOrder) := by
  have hfall : ∀ s : String, s ∉ sortableColumns →
      resolveSortColumn s = SortCol.createdAt := by
    intro s hs
    simp only [sortableColumns, List.mem_cons, List.not_mem_nil, or_false,
      not_or] at hs
    obtain ⟨h1, h2, h3, h4⟩ := hs
    simp [resolveSortColumn, h1, h2, h3, h4]
  refine ⟨hfall, ?_⟩
  intro st page pageSize s₁ s₂ sortOrder hs₁ hs₂ hneq hm₁ hm₂
  constructor
  · rw [get_articles_fst_miss st page pageSize s₁ sortOrder hm₁,
      get_articles_fst_miss st page pageSize s₂ sortOrder hm₂,
      hfall s₁ hs₁, hfall s₂ hs₂]
  · intro hkey
    have hd := congrArg String.data hkey
    rw [listCacheKey_data, listCacheKey_data] at hd
    have h1 := List.append_cancel_left hd
    obtain ⟨_, hrest⟩ := splitColon _ _ _ _ (natRepr_no_colon page)
      (natRepr_no_colon page) h1
    obtain ⟨_, hrest2⟩ := splitColon _ _ _ _ (natRepr_no_colon pageSize)
      (natRepr_no_colon pageSize) hrest
    have hdata : s₁.data = s₂.data := by
      have : s₁.data ++ ':' :: sortOrder.data =
          s₂.data ++ ':' :: sortOrder.data := hrest2
      exact List.append_cancel_right this
    exact hneq (string_data_inj hdata)

/-- Witness for `C10_sort_fallback`: two concrete unrecognized sort
columns produce the same payload under distinct keys. -/
theorem C10_sort_fallback_witness :
    (get_articles stMissX 1 20 "bogus" "desc").1 =
      (get_articles stMissX 1 20 "other" "desc").1 ∧
    listCacheKey 1 20 "bogus" "desc" ≠ listCacheKey 1 20 "other" "desc" :=
  C10_sort_fallback.2 stMissX 1 20 "bogus" "other" "desc"
    (by decide) (by decide) (by decide) rfl rfl
